import Mathlib

/- Verification of the taskgraph coordination framework: a shallow embedding
of `framework.go` and `pkg/etcdutil/healthy.go`, with theorems about the
heartbeat TTL, failure detection, readiness watches, and role dispatch. -/

namespace Taskgraph

/-- An etcd response as the Go code consumes it: the event action ("set",
"delete", "expire", ...), the store index `EtcdIndex`, and the node value
(`resp.Node.Value`). -/
structure EtcdResponse where
  Action : String
  EtcdIndex : Nat
  NodeValue : String
deriving DecidableEq, Repr

/-- Nanoseconds in one second: Go's `time.Second` as a `time.Duration` count. -/
def nsPerSecond : Nat := 1000000000

/-- Embeds `computeTTL` from `pkg/etcdutil/healthy.go`:
`uint64(math.Min(5*float64(interval/time.Second), 1))`.
`interval` is a duration in nanoseconds and `interval/time.Second` is Go
integer division; for the nonnegative durations of interest (below 2^50 ns)
the float64 arithmetic is exact, so `math.Min` is `Nat.min`. -/
def computeTTL (interval : Nat) : Nat :=
  min (5 * (interval / nsPerSecond)) 1

/-- Embeds the watch loop of `DetectFailure` (`pkg/etcdutil/healthy.go`).
The Go loop calls `client.Watch(key, waitIndex, false, nil, stop)`
repeatedly; the sequence of outcomes those calls produce is modelled as a
list consumed in order. The first component of the result records the
`waitIndex` argument passed to each `Watch` call (the final entry being the
index of a still-pending call when the list runs out); the second component
is the loop's return value: `some (taskID, none)` for a confirmed failure
(`return taskID, nil`), `some (0, some err)` when a watch call errors
(`return 0, err`), and `none` while the loop is still blocked. -/
def detectLoop (taskID waitIndex : Nat)
    (watchResults : List (Except String EtcdResponse)) :
    List Nat × Option (Nat × Option String) :=
  match watchResults with
  | [] => ([waitIndex], none)
  | Except.error err :: _ => ([waitIndex], some (0, some err))
  | Except.ok resp :: rest =>
    if resp.Action = "delete" ∨ resp.Action = "expire" then
      ([waitIndex], some (taskID, none))
    else
      let next := detectLoop taskID (resp.EtcdIndex + 1) rest
      (waitIndex :: next.1, next.2)

/-- Embeds `DetectFailure` (`pkg/etcdutil/healthy.go`): the initial
`client.Get(key, false, false)` either errors (`Except.error`) or returns
the value together with its `EtcdIndex`. On error the Go code returns
`(taskID, nil)` at once, making no watch call; otherwise it enters the
watch loop with `waitIndex := resp.EtcdIndex + 1`. -/
def DetectFailure (taskID : Nat) (getResult : Except String (String × Nat))
    (watchResults : List (Except String EtcdResponse)) :
    List Nat × Option (Nat × Option String) :=
  match getResult with
  | Except.error _ => ([], some (taskID, none))
  | Except.ok (_, etcdIndex) => detectLoop taskID (etcdIndex + 1) watchResults

/-- `taskRole` from `framework.go`. -/
inductive TaskRole where
  | noneRole
  | parentRole
  | childRole
deriving DecidableEq, Repr

/-- The `Topology` interface as the framework consumes it: per-epoch parent
and child task lists. -/
structure Topology where
  GetParents : Nat → List Nat
  GetChildren : Nat → List Nat

/-- Which task callback a neighbor watch feeds (`watchAll` in
`framework.go`). -/
inductive CallbackKind where
  | parentMetaReady
  | childMetaReady
deriving DecidableEq, Repr

/-- Which task method serves an inbound data request
(`newDataReqHandler` in `framework.go`). -/
inductive ServeChoice where
  | serveAsChild
  | serveAsParent
deriving DecidableEq, Repr

/-- The `framework` struct fields the verified claims depend on. A stop
channel (`chan bool`) is modelled by its closed flag: `false` = open,
`true` = closed. `watches` records, for each neighbor watch created by
`watchAll`, the neighbor's taskID, the watched path, and the callback the
watch feeds. -/
structure Framework where
  name : String
  taskID : Nat
  epoch : Nat
  topology : Topology
  stops : List Bool
  watches : List (Nat × String × CallbackKind)

/-- Modelled from the spec: `MakeParentMetaPath` is referenced by
`framework.go` but its definition is not among the provided sources; the
spec's path table gives the as-parent-signal path as `/parentMeta/` plus
the job name plus `/` plus the TaskID. -/
def MakeParentMetaPath (name : String) (taskID : Nat) : String :=
  "/parentMeta/" ++ name ++ "/" ++ toString taskID

/-- Modelled from the spec: `MakeChildMetaPath` is referenced by
`framework.go` but its definition is not among the provided sources; the
spec's path table gives the as-child-signal path as `/childMeta/` plus the
job name plus `/` plus the TaskID. -/
def MakeChildMetaPath (name : String) (taskID : Nat) : String :=
  "/childMeta/" ++ name ++ "/" ++ toString taskID

/-- Embeds `parentOrChild` (`framework.go`): scan `GetParents(epoch)`
first, returning `parentRole` on the first match; then scan
`GetChildren(epoch)`; otherwise `noneRole`. -/
def parentOrChild (f : Framework) (taskID : Nat) : TaskRole :=
  if (f.topology.GetParents f.epoch).any (fun id => taskID == id) then
    TaskRole.parentRole
  else if (f.topology.GetChildren f.epoch).any (fun id => taskID == id) then
    TaskRole.childRole
  else
    TaskRole.noneRole

/-- Embeds the per-neighbor setup in `watchAll` (`framework.go`): for
`parentRole` the framework watches the parent's child-meta path and feeds
`ParentMetaReady`; for `childRole` it watches the child's parent-meta path
and feeds `ChildMetaReady`; the default branch panics in Go, modelled as
`none`. -/
def watchEntry (f : Framework) (who : TaskRole) (taskID : Nat) :
    Option (Nat × String × CallbackKind) :=
  match who with
  | TaskRole.parentRole =>
    some (taskID, MakeChildMetaPath f.name taskID, CallbackKind.parentMetaReady)
  | TaskRole.childRole =>
    some (taskID, MakeParentMetaPath f.name taskID, CallbackKind.childMetaReady)
  | TaskRole.noneRole => none

/-- Embeds `watchAll` (`framework.go`): one watch per taskID in the list.
At both call sites `who` is `parentRole` or `childRole`, so no entry is
ever dropped by the `filterMap`. -/
def watchAll (f : Framework) (who : TaskRole) (taskIDs : List Nat) :
    List (Nat × String × CallbackKind) :=
  taskIDs.filterMap (watchEntry f who)

/-- Embeds the receiver goroutine of `watchAll` (`framework.go`): for each
response received on the channel, an event whose action is not "set" is
skipped (`continue`); a "set" event invokes the task callback with the
neighbor's taskID and the node value. The returned list is the sequence of
callback invocations, in order. -/
def receiverLoop (callback : CallbackKind) (taskID : Nat)
    (resps : List EtcdResponse) : List (CallbackKind × Nat × String) :=
  resps.filterMap fun r =>
    if r.Action = "set" then some (callback, taskID, r.NodeValue) else none

/-- Embeds `start` (`framework.go`) as far as the claims need: it sets
`epoch := 0` and `stops := []`, creates the parent-direction and
child-direction watches for the epoch-0 topology snapshot (one fresh open
stop channel per watch, as in `watchAll`), and appends their stop channels
to `f.stops`. Go's `start` returns nothing and performs no topology
validation whatsoever. -/
def start (f : Framework) : Framework :=
  let f0 := { f with epoch := 0, stops := ([] : List Bool),
                     watches := ([] : List (Nat × String × CallbackKind)) }
  let parentWatches := watchAll f0 TaskRole.parentRole (f0.topology.GetParents f0.epoch)
  let childWatches := watchAll f0 TaskRole.childRole (f0.topology.GetChildren f0.epoch)
  { f0 with
      watches := parentWatches ++ childWatches,
      stops := f0.stops ++ parentWatches.map (fun _ => false)
                 ++ childWatches.map (fun _ => false) }

/-- Embeds `(f *framework) stop` (`framework.go`): closes every channel in
`f.stops`. -/
def stop (f : Framework) : Framework :=
  { f with stops := f.stops.map (fun _ => true) }

/-- Embeds `(f *framework) Exit` (`framework.go`). Its Go body is empty:
it performs no action at all. -/
def Exit (f : Framework) : Framework :=
  f

/-- Embeds `FlagParentMetaReady` (`framework.go`): the etcd `Set` it
issues, as a (path, value, ttl) triple. -/
def flagParentMetaReadyWrite (f : Framework) (meta : String) :
    String × String × Nat :=
  (MakeParentMetaPath f.name f.taskID, meta, 0)

/-- Embeds `FlagChildMetaReady` (`framework.go`): the etcd `Set` it
issues, as a (path, value, ttl) triple. -/
def flagChildMetaReadyWrite (f : Framework) (meta : String) :
    String × String × Nat :=
  (MakeChildMetaPath f.name f.taskID, meta, 0)

/-- Embeds the dispatch switch of `newDataReqHandler` (`framework.go`): a
parent-classified caller is served by `ServeAsChild`, a child-classified
caller by `ServeAsParent`, and the default branch panics
(`"unimplemented"`), aborting the request — modelled as `none`. -/
def dataReqDispatch (f : Framework) (fromID : Nat) : Option ServeChoice :=
  match parentOrChild f fromID with
  | TaskRole.parentRole => some ServeChoice.serveAsChild
  | TaskRole.childRole => some ServeChoice.serveAsParent
  | TaskRole.noneRole => none

/-- A topology in which task 1 is both a parent and a child of the
observer, at every epoch. -/
def overlapTopology : Topology :=
  { GetParents := fun _ => [1], GetChildren := fun _ => [1] }

/-- An observer framework (task 0, job "job") configured with
`overlapTopology`. -/
def overlapFramework : Framework :=
  { name := "job", taskID := 0, epoch := 0, topology := overlapTopology,
    stops := [], watches := [] }

/-- A topology with a single parent, task 1, and no children. -/
def oneParentTopology : Topology :=
  { GetParents := fun _ => [1], GetChildren := fun _ => [] }

/-- An observer framework (task 0, job "job") configured with
`oneParentTopology`. -/
def oneParentFramework : Framework :=
  { name := "job", taskID := 0, epoch := 0, topology := oneParentTopology,
    stops := [], watches := [] }

/-- The framework instance of task 1 itself in job "job" (the parent-side
peer of `oneParentFramework`). -/
def parentSideFramework : Framework :=
  { name := "job", taskID := 1, epoch := 0, topology := oneParentTopology,
    stops := [], watches := [] }

/-- The second component of `detectLoop` (the loop's return value) does
not depend on the waitIndex argument: the waitIndex only feeds the call
trace. -/
lemma detectLoop_snd_congr (tid w w' : Nat)
    (l : List (Except String EtcdResponse)) :
    (detectLoop tid w l).2 = (detectLoop tid w' l).2 := by
  cases l with
  | nil => rfl
  | cons x rest =>
    cases x with
    | error e => rfl
    | ok r =>
      by_cases h : r.Action = "delete" ∨ r.Action = "expire" <;>
        simp [detectLoop, h]

/-- A prefix of benign events (successful watch results that are neither
"delete" nor "expire") is skipped by the loop without returning. -/
lemma detectLoop_skip_benign (tid : Nat)
    (pre rest : List (Except String EtcdResponse))
    (hpre : ∀ r ∈ pre, ∃ x, r = Except.ok x ∧
      x.Action ≠ "delete" ∧ x.Action ≠ "expire") :
    ∀ w, (detectLoop tid w (pre ++ rest)).2 = (detectLoop tid w rest).2 := by
  induction pre with
  | nil => intro w; rfl
  | cons x pre ih =>
    intro w
    obtain ⟨r, hx, hd, he⟩ := hpre x (by simp)
    subst hx
    have hcond : ¬(r.Action = "delete" ∨ r.Action = "expire") := by
      rintro (h | h)
      · exact hd h
      · exact he h
    have step : (detectLoop tid w ((Except.ok r :: pre) ++ rest)).2
        = (detectLoop tid (r.EtcdIndex + 1) (pre ++ rest)).2 := by
      simp [detectLoop, hcond]
    rw [step, ih (fun s hs => hpre s (by simp [hs])) (r.EtcdIndex + 1)]
    exact detectLoop_snd_congr tid (r.EtcdIndex + 1) w rest

/-- The `List.any` scan with Go's equality test is list membership. -/
lemma any_beq_iff_mem (t : Nat) (l : List Nat) :
    l.any (fun id => t == id) = true ↔ t ∈ l := by
  induction l with
  | nil => simp
  | cons a l ih =>
    simp only [List.any_cons, Bool.or_eq_true, beq_iff_eq, List.mem_cons, ih]

/-- `parentOrChild` classifies a member of the parent list as a parent,
regardless of the child list. -/
lemma parentOrChild_of_mem_parents (f : Framework) (t : Nat)
    (hp : t ∈ f.topology.GetParents f.epoch) :
    parentOrChild f t = TaskRole.parentRole := by
  unfold parentOrChild
  rw [if_pos ((any_beq_iff_mem t _).mpr hp)]

/-- `parentOrChild` classifies a task on the child list but not the parent
list as a child. -/
lemma parentOrChild_of_mem_children (f : Framework) (t : Nat)
    (hp : t ∉ f.topology.GetParents f.epoch)
    (hc : t ∈ f.topology.GetChildren f.epoch) :
    parentOrChild f t = TaskRole.childRole := by
  unfold parentOrChild
  rw [if_neg (fun h => hp ((any_beq_iff_mem t _).mp h)),
    if_pos ((any_beq_iff_mem t _).mpr hc)]

/-- `parentOrChild` classifies a task on neither list as none. -/
lemma parentOrChild_of_mem_neither (f : Framework) (t : Nat)
    (hp : t ∉ f.topology.GetParents f.epoch)
    (hc : t ∉ f.topology.GetChildren f.epoch) :
    parentOrChild f t = TaskRole.noneRole := by
  unfold parentOrChild
  rw [if_neg (fun h => hp ((any_beq_iff_mem t _).mp h)),
    if_neg (fun h => hc ((any_beq_iff_mem t _).mp h))]

/-- C1 evidence: the TTL the code computes is not ≥ the heartbeat
interval. At a 2-second interval, `computeTTL` yields a TTL of 1 second
(`math.Min` caps the value at 1 instead of flooring it at 1), and 1 second
is strictly less than the 2-second interval. -/
theorem computeTTL_at_two_seconds :
    computeTTL (2 * nsPerSecond) = 1 ∧
    1 * nsPerSecond < 2 * nsPerSecond := by
  constructor
  · decide
  · decide

/-- C2 evidence: `Exit()` does not close the watch-stop handles. Its Go
body is empty, so the framework state is unchanged and the stop channel
created by `start` for the single parent watch stays open (`false`); the
`stop` method — which `Exit` never calls — is what would close it. -/
theorem exit_leaves_stops_open :
    Exit (start oneParentFramework) = start oneParentFramework ∧
    (Exit (start oneParentFramework)).stops = [false] ∧
    (stop (start oneParentFramework)).stops = [true] :=
  ⟨rfl, rfl, rfl⟩

/-- C4: when the initial Get fails (in particular when the HealthRecord
key is absent), `DetectFailure` returns the taskID with nil error at once:
no watch call is made (the call trace is empty) and the result does not
depend on any later watch events, so the call does not block. -/
theorem detectFailure_absent_immediate (tid : Nat) (err : String)
    (evs : List (Except String EtcdResponse)) :
    DetectFailure tid (Except.error err) evs = ([], some (tid, none)) :=
  rfl

/-- C10: `DetectFailure` treats every initial-read error identically — any
two errors (key absence, store unavailability, a closed client) yield the
same outcome, namely `(taskID, nil)` with no watch call; the code never
inspects the error to distinguish a failed read from an absent record. -/
theorem detectFailure_error_uniform (tid : Nat) (e₁ e₂ : String)
    (evs₁ evs₂ : List (Except String EtcdResponse)) :
    DetectFailure tid (Except.error e₁) evs₁
      = DetectFailure tid (Except.error e₂) evs₂ ∧
    (DetectFailure tid (Except.error e₁) evs₁).2 = some (tid, none) :=
  ⟨rfl, rfl⟩

/-- C3: after a successful initial read, the watch loop of `DetectFailure`
(i) returns the watched identity with nil error at the first event whose
action is "delete" or "expire" (any benign prefix is skipped without
returning); (ii) on a benign event it continues as a fresh loop whose next
watch call is made at the event's index plus one — strictly past that
event's index, so the same index is never re-observed; (iii) an error from
a watch call is terminal, returned to the caller as `(0, err)` after any
benign prefix; and (iv) on benign events alone the loop never returns. -/
theorem detectLoop_contract (tid w : Nat) (e : EtcdResponse) (err : String)
    (pre post : List (Except String EtcdResponse))
    (hpre : ∀ r ∈ pre, ∃ x, r = Except.ok x ∧
      x.Action ≠ "delete" ∧ x.Action ≠ "expire") :
    ((e.Action = "delete" ∨ e.Action = "expire") →
      (detectLoop tid w (pre ++ Except.ok e :: post)).2 = some (tid, none)) ∧
    ((e.Action ≠ "delete" ∧ e.Action ≠ "expire") →
      (detectLoop tid w (Except.ok e :: post)).1
          = w :: (detectLoop tid (e.EtcdIndex + 1) post).1
        ∧ (detectLoop tid w (Except.ok e :: post)).2
          = (detectLoop tid (e.EtcdIndex + 1) post).2
        ∧ e.EtcdIndex < e.EtcdIndex + 1) ∧
    ((detectLoop tid w (pre ++ Except.error err :: post)).2
      = some (0, some err)) ∧
    ((detectLoop tid w pre).2 = none) := by
  refine ⟨?_, ?_, ?_, ?_⟩
  · intro hterm
    rw [detectLoop_skip_benign tid pre (Except.ok e :: post) hpre w]
    simp [detectLoop, hterm]
  · intro hben
    have hcond : ¬(e.Action = "delete" ∨ e.Action = "expire") := by
      rintro (h | h)
      · exact hben.1 h
      · exact hben.2 h
    refine ⟨?_, ?_, Nat.lt_succ_self _⟩
    · simp [detectLoop, hcond]
    · simp [detectLoop, hcond]
  · rw [detectLoop_skip_benign tid pre (Except.error err :: post) hpre w]
    rfl
  · have := detectLoop_skip_benign tid pre [] hpre w
    rw [List.append_nil] at this
    rw [this]
    rfl

/-- Witness for C3: with a benign re-write ("set") observed first and then
an "expire" event, the loop returns the watched identity 7 with nil
error. -/
theorem detectLoop_contract_witness :
    (detectLoop 7 11 ([Except.ok ⟨"set", 11, "health"⟩] ++
        Except.ok ⟨"expire", 12, ""⟩ :: [])).2 = some (7, none) := by
  refine (detectLoop_contract 7 11 ⟨"expire", 12, ""⟩ "closed"
      [Except.ok ⟨"set", 11, "health"⟩] [] ?_).1 (Or.inr rfl)
  intro r hr
  rw [List.mem_singleton] at hr
  exact ⟨⟨"set", 11, "health"⟩, hr, by decide, by decide⟩

/-- C5: readiness round-trip. If task A's framework instance `fa` and an
observer's instance `fb` share the job name and `fa` is task A, then:
the path A writes with `FlagChildMetaReady(p)` is exactly the path that
`watchAll(parentRole, ...)` watches for A whenever A is in the observer's
parent list, and that watch feeds `ParentMetaReady`; a "set" event
carrying value p on such a watch invokes `ParentMetaReady(A, p)`.
Symmetrically, the path written by `FlagParentMetaReady(p)` is the path
watched for A as a child, feeding `ChildMetaReady`, and a "set" event with
value p invokes `ChildMetaReady(A, p)`. -/
theorem readiness_round_trip (fa fb : Framework) (A n : Nat) (p : String)
    (hname : fa.name = fb.name) (hid : fa.taskID = A) :
    (A ∈ fb.topology.GetParents fb.epoch →
      (A, (flagChildMetaReadyWrite fa p).1, CallbackKind.parentMetaReady)
        ∈ watchAll fb TaskRole.parentRole (fb.topology.GetParents fb.epoch)) ∧
    receiverLoop CallbackKind.parentMetaReady A [⟨"set", n, p⟩]
      = [(CallbackKind.parentMetaReady, A, p)] ∧
    (A ∈ fb.topology.GetChildren fb.epoch →
      (A, (flagParentMetaReadyWrite fa p).1, CallbackKind.childMetaReady)
        ∈ watchAll fb TaskRole.childRole (fb.topology.GetChildren fb.epoch)) ∧
    receiverLoop CallbackKind.childMetaReady A [⟨"set", n, p⟩]
      = [(CallbackKind.childMetaReady, A, p)] := by
  refine ⟨?_, ?_, ?_, ?_⟩
  · intro hmem
    refine List.mem_filterMap.mpr ⟨A, hmem, ?_⟩
    simp [watchEntry, flagChildMetaReadyWrite, hname, hid]
  · simp [receiverLoop]
  · intro hmem
    refine List.mem_filterMap.mpr ⟨A, hmem, ?_⟩
    simp [watchEntry, flagParentMetaReadyWrite, hname, hid]
  · simp [receiverLoop]

/-- Witness for C5: in job "job", the observer task 0 has task 1 as a
parent; the path task 1 writes with `FlagChildMetaReady` is among the
observer's parent-direction watches, paired with `ParentMetaReady`. -/
theorem readiness_round_trip_witness :
    (1 ∈ oneParentFramework.topology.GetParents oneParentFramework.epoch) ∧
    ((1 : Nat), (flagChildMetaReadyWrite parentSideFramework "ready").1,
        CallbackKind.parentMetaReady)
      ∈ watchAll oneParentFramework TaskRole.parentRole
          (oneParentFramework.topology.GetParents oneParentFramework.epoch) :=
  ⟨by decide,
    (readiness_round_trip parentSideFramework oneParentFramework 1 3 "ready"
      rfl rfl).1 (by decide)⟩

/-- C6: for every event received on a neighbor readiness watch, the task
callback is invoked exactly when the event's action is "set" — a "set"
event at the head of the stream produces exactly one callback with the
node value, any other action produces none, and the loop then continues
with the remaining events; an empty stream produces no callbacks. -/
theorem receiverLoop_set_only (cb : CallbackKind) (tid : Nat)
    (r : EtcdResponse) (rest : List EtcdResponse) :
    receiverLoop cb tid (r :: rest)
      = (if r.Action = "set" then [(cb, tid, r.NodeValue)] else [])
        ++ receiverLoop cb tid rest ∧
    receiverLoop cb tid ([] : List EtcdResponse) = [] := by
  constructor
  · by_cases h : r.Action = "set" <;> simp [receiverLoop, h]
  · rfl

/-- C7: the inbound data-request handler classifies the origin TaskID
against the server's own topology at the current epoch: a task on the
parent list is served by `ServeAsChild`; a task on the child list (and not
the parent list) is served by `ServeAsParent`; a task on neither list hits
the panicking default branch — the request is aborted (`none`), never
served. -/
theorem dataReq_dispatch_by_role (f : Framework) (fromID : Nat) :
    (fromID ∈ f.topology.GetParents f.epoch →
      dataReqDispatch f fromID = some ServeChoice.serveAsChild) ∧
    (fromID ∉ f.topology.GetParents f.epoch →
      fromID ∈ f.topology.GetChildren f.epoch →
      dataReqDispatch f fromID = some ServeChoice.serveAsParent) ∧
    (fromID ∉ f.topology.GetParents f.epoch →
      fromID ∉ f.topology.GetChildren f.epoch →
      dataReqDispatch f fromID = none) := by
  refine ⟨?_, ?_, ?_⟩
  · intro hp
    rw [dataReqDispatch, parentOrChild_of_mem_parents f fromID hp]
  · intro hp hc
    rw [dataReqDispatch, parentOrChild_of_mem_children f fromID hp hc]
  · intro hp hc
    rw [dataReqDispatch, parentOrChild_of_mem_neither f fromID hp hc]

/-- Witness for C7: in `oneParentFramework`, a request from task 1 (a
parent) is served by `ServeAsChild`, and a request from task 9 (neither
parent nor child) is aborted. -/
theorem dataReq_dispatch_by_role_witness :
    (1 ∈ oneParentFramework.topology.GetParents oneParentFramework.epoch) ∧
    dataReqDispatch oneParentFramework 1 = some ServeChoice.serveAsChild ∧
    dataReqDispatch oneParentFramework 9 = none :=
  ⟨by decide,
    (dataReq_dispatch_by_role oneParentFramework 1).1 (by decide),
    (dataReq_dispatch_by_role oneParentFramework 9).2.2 (by decide) (by decide)⟩

/-- C9: `parentOrChild` returns a single role per call; when a TaskID
occurs in both `GetParents(epoch)` and `GetChildren(epoch)` it is
classified as a parent — the parent list is scanned first and takes
precedence — never as a child and never as none. -/
theorem parentOrChild_parent_precedence (f : Framework) (t : Nat)
    (hp : t ∈ f.topology.GetParents f.epoch)
    (hc : t ∈ f.topology.GetChildren f.epoch) :
    parentOrChild f t = TaskRole.parentRole ∧
    parentOrChild f t ≠ TaskRole.childRole ∧
    parentOrChild f t ≠ TaskRole.noneRole := by
  have h := parentOrChild_of_mem_parents f t hp
  exact ⟨h, by rw [h]; exact fun hcontra => TaskRole.noConfusion hcontra,
    by rw [h]; exact fun hcontra => TaskRole.noConfusion hcontra⟩

/-- Witness for C9: in `overlapFramework`, task 1 is on both lists and is
classified as a parent. -/
theorem parentOrChild_parent_precedence_witness :
    (1 ∈ overlapFramework.topology.GetParents overlapFramework.epoch) ∧
    (1 ∈ overlapFramework.topology.GetChildren overlapFramework.epoch) ∧
    parentOrChild overlapFramework 1 = TaskRole.parentRole :=
  ⟨by decide, by decide,
    (parentOrChild_parent_precedence overlapFramework 1
      (by decide) (by decide)).1⟩

/-- C8 counterexample: on a topology where task 1 is both a parent and a
child of the observer, `start` proceeds normally — it creates the watch in
each direction and an open stop channel for each — instead of failing;
Go's `start` returns nothing, so it has no error path at all and rejects
nothing. -/
theorem start_no_rejection_counterexample :
    (start overlapFramework).watches
      = [(1, MakeChildMetaPath "job" 1, CallbackKind.parentMetaReady),
         (1, MakeParentMetaPath "job" 1, CallbackKind.childMetaReady)] ∧
    (start overlapFramework).stops = [false, false] :=
  ⟨rfl, rfl⟩

/-- C8 amended: a topology in which some task appears in both the parent
set and the child set of the same observer for epoch 0 is NOT rejected at
startup; `start` proceeds, creating a watch in each direction for that
task (with its stop channel), and the role conflict is resolved only at
classification time, in favor of parent. -/
theorem start_overlap_not_rejected (f : Framework) (t : Nat)
    (hp : t ∈ f.topology.GetParents 0)
    (hc : t ∈ f.topology.GetChildren 0) :
    (t, MakeChildMetaPath f.name t, CallbackKind.parentMetaReady)
      ∈ (start f).watches ∧
    (t, MakeParentMetaPath f.name t, CallbackKind.childMetaReady)
      ∈ (start f).watches ∧
    parentOrChild (start f) t = TaskRole.parentRole := by
  refine ⟨?_, ?_, ?_⟩
  · exact List.mem_append_left _
      (List.mem_filterMap.mpr ⟨t, hp, rfl⟩)
  · exact List.mem_append_right _
      (List.mem_filterMap.mpr ⟨t, hc, rfl⟩)
  · exact parentOrChild_of_mem_parents (start f) t hp

/-- Witness for C8 (amended): on `overlapFramework`, start creates the
parent-direction watch for task 1 and still classifies task 1 as a
parent. -/
theorem start_overlap_not_rejected_witness :
    (1 ∈ overlapFramework.topology.GetParents 0) ∧
    (1 ∈ overlapFramework.topology.GetChildren 0) ∧
    parentOrChild (start overlapFramework) 1 = TaskRole.parentRole :=
  ⟨by decide, by decide,
    (start_overlap_not_rejected overlapFramework 1
      (by decide) (by decide)).2.2⟩

end Taskgraph
